import Mathlib

/-!
Verification development for the maillink repository (a Gmail mail-merge
batch sender).  The send loop of src/app.py, together with its helper
functions, is shallowly embedded below.

Embedding conventions:
* A recipient table row is a list of (column, value) pairs; every cell is
  stored as the image of the Python str() coercion that the source applies
  downstream (so a NaN cell is the string "nan", a None cell the string
  "None").
* External Gmail API calls are an oracle (structure Gmail) indexed by row
  number and attempt number; each call either returns the provider payload
  or an exception message.
* The loop emits a trace of externally visible actions (provider calls and
  sleeps) so that properties about which calls are issued, and which
  delays are taken, can be stated.
-/

namespace Maillink

/-- A recipient row: column name to str()-image of the cell value. -/
abbrev Fields := List (String × String)

/-- Series lookup, first matching column (models row[key] / row.get(key)). -/
def fget? (r : Fields) (k : String) : Option String :=
  (r.find? (fun p => p.1 = k)).map Prod.snd

/-- Lookup with a default (models row.get(key, default)). -/
def fgetD (r : Fields) (k d : String) : String :=
  (fget? r k).getD d

/-- Cell assignment (models df.loc[idx, col] = value): replaces the first
occurrence of the column or appends it. -/
def fset : Fields → String → String → Fields
  | [], k, v => [(k, v)]
  | (k', v') :: rest, k, v =>
    if k' = k then (k, v) :: rest else (k', v') :: fset rest k v

/-- Python str.strip(): remove leading and trailing whitespace
(character-level, so that it evaluates inside the kernel). -/
def pyStrip (s : String) : String :=
  String.mk (((s.data.dropWhile Char.isWhitespace).reverse.dropWhile Char.isWhitespace).reverse)

/-- Python str.lower(), character-level. -/
def strLower (s : String) : String :=
  String.mk (s.data.map Char.toLower)

/-! ### extract_email (src/app.py lines 47-53)

EMAIL_REGEX = [\w\.-]+@[\w\.-]+\.\w+ ; extract_email returns the first
(leftmost, greedy with backtracking) match of that pattern, None if the
value is falsy or there is no match. -/

/-- A word character of the regex class backslash-w (ASCII reading). -/
def isWordChar (c : Char) : Bool := c.isAlphanum || c = '_'

/-- A character of the bracket class holding word chars, dot and hyphen. -/
def isAddrChar (c : Char) : Bool := isWordChar c || c = '.' || c = '-'

/-- Greedy match of one-or-more characters satisfying p, followed by the
continuation k, with backtracking: the longest prefix for which the
continuation succeeds wins, as in the Python regex engine. -/
def plusThen (p : Char → Bool) (k : List Char → Option (List Char × List Char)) :
    List Char → Option (List Char × List Char)
  | [] => none
  | c :: rest =>
    if p c then
      match plusThen p k rest with
      | some (m, r) => some (c :: m, r)
      | none =>
        match k rest with
        | some (m, r) => some (c :: m, r)
        | none => none
    else none

/-- Greedy match of backslash-w one-or-more (nothing follows it in the
pattern, so no backtracking is needed). -/
def wordPlus : List Char → Option (List Char × List Char)
  | [] => none
  | c :: rest =>
    if isWordChar c then
      let m := rest.takeWhile isWordChar
      some (c :: m, rest.dropWhile isWordChar)
    else none

/-- Match of a literal dot followed by backslash-w one-or-more. -/
def dotWord : List Char → Option (List Char × List Char)
  | [] => none
  | c :: rest =>
    if c = '.' then
      match wordPlus rest with
      | some (m, r) => some (c :: m, r)
      | none => none
    else none

/-- Match of the at-sign followed by addr-class one-or-more, dot, word
one-or-more. -/
def atTail : List Char → Option (List Char × List Char)
  | [] => none
  | c :: rest =>
    if c = '@' then
      match plusThen isAddrChar dotWord rest with
      | some (m, r) => some (c :: m, r)
      | none => none
    else none

/-- Attempt to match EMAIL_REGEX at the head of the list. -/
def emailAt : List Char → Option (List Char × List Char) :=
  plusThen isAddrChar atTail

/-- Leftmost search for EMAIL_REGEX (models re.search, group(0)). -/
def searchEmail : List Char → Option (List Char)
  | [] => none
  | c :: rest =>
    match emailAt (c :: rest) with
    | some (m, _) => some m
    | none => searchEmail rest

/-- extract_email from src/app.py: None on a falsy value, otherwise the
first EMAIL_REGEX match, None if there is no match. -/
def extract_email (value : String) : Option String :=
  if value = "" then none
  else (searchEmail value.data).map (fun l => String.mk l)

/-! ### Python str.format over a row (subject_template.format(**row))

Model of the cases exercised by this program: plain text, doubled braces
as escapes, and simple named placeholder fields.  A placeholder naming a
column absent from the row raises KeyError (the model returns an error
holding the Python exception text str(KeyError(name)) which is the name
wrapped in single quotes); a lone closing brace raises ValueError. -/

/-- The text str(e) of a Python KeyError for a missing format field. -/
def keyErrMsg (n : String) : String := "\x27" ++ n ++ "\x27"

/-- ValueError text for a single closing brace. -/
def errSingleClose : String := "Single \x27\x7d\x27 encountered in format string"

/-- ValueError text for an unterminated replacement field. -/
def errUnterminated : String := "expected \x27\x7d\x27 before end of string"

/-- Scanner for str.format: the first argument is none outside a
replacement field, or some acc inside one (acc holds the field name read
so far, reversed). -/
def pyFmtGo (fields : Fields) : Option (List Char) → List Char → Except String (List Char)
  | none, [] => .ok []
  | none, '{' :: '{' :: rest => (pyFmtGo fields none rest).map (fun t => '{' :: t)
  | none, '}' :: '}' :: rest => (pyFmtGo fields none rest).map (fun t => '}' :: t)
  | none, '{' :: rest => pyFmtGo fields (some []) rest
  | none, '}' :: _ => .error errSingleClose
  | none, c :: rest => (pyFmtGo fields none rest).map (fun t => c :: t)
  | some _, [] => .error errUnterminated
  | some acc, '}' :: rest =>
    (match fget? fields (String.mk acc.reverse) with
     | some v => (pyFmtGo fields none rest).map (fun t => v.data ++ t)
     | none => .error (keyErrMsg (String.mk acc.reverse)))
  | some acc, c :: rest => pyFmtGo fields (some (c :: acc)) rest

/-- template.format(**row): renders the template against the row, or
returns the exception text. -/
def pyFormat (template : String) (fields : Fields) : Except String String :=
  (pyFmtGo fields none template.data).map String.mk

/-! ### safe_label / file_name (src/app.py lines 451-454)

safe_label = re.sub of the complement of [A-Za-z0-9_-] by an underscore;
file_name is the deterministic concatenation used for the snapshot. -/

/-- Characters the sanitizer keeps: ASCII alphanumerics, underscore,
hyphen. -/
def keepChar (c : Char) : Bool := c.isAlphanum || c = '_' || c = '-'

/-- safe_label: every character outside the kept class becomes an
underscore. -/
def safe_label (s : String) : String :=
  String.mk (s.data.map (fun c => if keepChar c then c else '_'))

/-- file_name for the persisted snapshot CSV. -/
def file_name (label timestamp : String) : String :=
  "Updated_" ++ safe_label label ++ "_" ++ timestamp ++ ".csv"

/-! ### get_or_create_label (src/app.py lines 55-72)

The labels().list() call and the labels().create() call are oracles:
either the decoded response or an exception message.  The function
returns the label id (None on any exception) together with a flag telling
whether a create call was issued. -/

/-- A Gmail label resource as consumed by the loop over the list
response. -/
structure GLabel where
  name : String
  id : String
deriving DecidableEq

/-- The for-loop over the labels list: first label whose lowercased name
equals the lowercased requested name. -/
def findLabelLoop (labelName : String) : List GLabel → Option String
  | [] => none
  | l :: rest =>
    if strLower l.name = strLower labelName then some l.id
    else findLabelLoop labelName rest

/-- get_or_create_label: list the labels, return the first
case-insensitive match; otherwise create the label; any exception yields
None. -/
def get_or_create_label (labelsRes : Except String (List GLabel))
    (createRes : Except String String) (labelName : String) :
    Option String × Bool :=
  match labelsRes with
  | .error _ => (none, false)
  | .ok labels =>
    match findLabelLoop labelName labels with
    | some i => (some i, false)
    | none =>
      match createRes with
      | .ok newId => (some newId, true)
      | .error _ => (none, true)

/-! ### The send loop (src/app.py lines 335-445)

The loop iterates over every row of the uploaded table.  For each row it
extracts the address (skip when none), renders the two templates (a
KeyError goes to the per-row exception handler), builds the message body
dict (Reply mode attaches a threadId and the two threading headers when
the stringified identifiers pass the emptiness / "nan" test), issues one
drafts.create or messages.send call, sleeps the jittered delay, polls
messages.get up to five times for the Message-ID header, best-effort
applies the label (New mode), and writes ThreadId / RfcMessageId back
into the table. -/

/-- The sending mode radio button. -/
inductive SendMode where
  | newEmail
  | reply
  | draft
deriving DecidableEq

/-- The msg_body dict together with the MIME headers the loop sets: the
recipient, the rendered subject, the rendered body (the source
additionally passes the body through convert_bold HTML decoration before
MIME encoding; that decoration is content-opaque here), the two
threading headers, and the threadId field of the dict. -/
structure Payload where
  toAddr : String
  subject : String
  body : String
  inReplyTo : Option String
  references : Option String
  threadId : Option String
deriving DecidableEq

/-- The fields of a messages.send / drafts.create response the loop
reads: resource id and threadId. -/
structure SendResult where
  id : String
  threadId : String
deriving DecidableEq

/-- Externally visible actions of one invocation, in order. -/
inductive Event where
  | sendCall (idx attempt : Nat) (p : Payload)
  | draftCall (idx : Nat) (p : Payload)
  | sleep (lo hi : ℚ)
  | getCall (idx attempt : Nat)
  | modifyCall (idx : Nat)
deriving DecidableEq

/-- Oracle for the Gmail service: responses of the provider calls the
loop can issue, indexed by row number (and attempt number where the spec
speaks of retries).  An error value is the str() text of the raised
exception. -/
structure Gmail where
  send : Nat → Nat → Except String SendResult
  draftCreate : Nat → Except String SendResult
  pollHeader : Nat → Nat → Option String

/-- The per-invocation configuration read from the UI widgets. -/
structure Config where
  subjectT : String
  bodyT : String
  mode : SendMode
  delay : Nat
  labelId : Option String

/-- Per-row result recorded by the loop: the skipped list entry
(row.get("Email") may be absent), the success with the extracted
address, or the errors list entry (address, exception text). -/
inductive Outcome where
  | skipped (emailCell : Option String)
  | success (addr : String)
  | errored (addr msg : String)
deriving DecidableEq

/-- Column creation before the loop: df["ThreadId"] = None when the
column is absent (a None cell has str() image "None"), same for
RfcMessageId. -/
def ensureCols (r : Fields) : Fields :=
  let r1 := if (fget? r "ThreadId").isSome then r else r ++ [("ThreadId", "None")]
  if (fget? r1 "RfcMessageId").isSome then r1 else r1 ++ [("RfcMessageId", "None")]

/-- msg_body construction.  In Reply mode, when both columns exist, the
stripped stringified identifiers are tested: a non-empty ThreadId whose
lowercase form is not "nan" and a non-empty RfcMessageId yield a reply
payload carrying the threadId and both threading headers; otherwise a
plain payload is built. -/
def buildMsgBody (cfg : Config) (row : Fields) (to_addr subj body : String) : Payload :=
  if cfg.mode = .reply ∧ (fget? row "ThreadId").isSome ∧ (fget? row "RfcMessageId").isSome then
    let tid := pyStrip ((fget? row "ThreadId").getD "")
    let rid := pyStrip ((fget? row "RfcMessageId").getD "")
    if tid ≠ "" ∧ strLower tid ≠ "nan" ∧ rid ≠ "" then
      ⟨to_addr, subj, body, some rid, some rid, some tid⟩
    else ⟨to_addr, subj, body, none, none, none⟩
  else ⟨to_addr, subj, body, none, none, none⟩

/-- The one provider call of the row: drafts.create in draft mode,
messages.send otherwise (a single attempt, number 0). -/
def rowCall (cfg : Config) (g : Gmail) (k : Nat) : Except String SendResult :=
  if cfg.mode = .draft then g.draftCreate k else g.send k 0

/-- Trace entry of that call. -/
def rowCallEv (cfg : Config) (k : Nat) (p : Payload) : Event :=
  if cfg.mode = .draft then .draftCall k p else .sendCall k 0 p

/-- The jittered inter-email delay: time.sleep(random.uniform(0.9 d,
1.1 d)) when the delay is positive, in every mode. -/
def jitterEvs (cfg : Config) : List Event :=
  if cfg.delay > 0 then
    [.sleep (9 * (cfg.delay : ℚ) / 10) (11 * (cfg.delay : ℚ) / 10)]
  else []

/-- The Message-ID polling loop: up to five attempts, each preceded by a
sleep of uniform(1.5, 2.5); stops at the first attempt that yields the
header.  Returns the header found (if any) and the trace. -/
def pollGo (g : Gmail) (k : Nat) : Nat → Nat → Option String × List Event
  | _, 0 => (none, [])
  | attempt, n + 1 =>
    let evs := [Event.sleep (3 / 2 : ℚ) (5 / 2), Event.getCall k attempt]
    match g.pollHeader k attempt with
    | some h => (some h, evs)
    | none =>
      let r := pollGo g k (attempt + 1) n
      (r.1, evs ++ r.2)

/-- Polling runs only when the response carried a resource id. -/
def pollPhase (g : Gmail) (k : Nat) (sm : SendResult) : Option String × List Event :=
  if sm.id ≠ "" then pollGo g k 0 5 else (none, [])

/-- Best-effort label application: New mode only, when a label id was
obtained and the response carried a resource id.  A failure only warns,
so only the call itself is traced. -/
def labelEvs (cfg : Config) (k : Nat) (sm : SendResult) : List Event :=
  if cfg.mode = .newEmail ∧ cfg.labelId.isSome ∧ sm.id ≠ "" then [.modifyCall k] else []

/-- The in-memory df update after a successful call: ThreadId becomes
the response threadId unless that is empty (Python or-fallback to the
old cell), RfcMessageId becomes the polled header when one was found,
else keeps the old cell. -/
def successRow (row : Fields) (sm : SendResult) (mih : Option String) : Fields :=
  fset (fset row "ThreadId"
         (if sm.threadId ≠ "" then sm.threadId else fgetD row "ThreadId" ""))
       "RfcMessageId"
       (match mih with
        | some h => h
        | none => fgetD row "RfcMessageId" "")

/-- One iteration of the send loop for the row at position k. -/
def processRow (cfg : Config) (g : Gmail) (k : Nat) (row : Fields) :
    Fields × Outcome × List Event :=
  match extract_email (pyStrip (fgetD row "Email" "")) with
  | none => (row, .skipped (fget? row "Email"), [])
  | some to_addr =>
    match pyFormat cfg.subjectT row with
    | .error e => (row, .errored to_addr e, [])
    | .ok subj =>
      match pyFormat cfg.bodyT row with
      | .error e => (row, .errored to_addr e, [])
      | .ok body =>
        let p := buildMsgBody cfg row to_addr subj body
        match rowCall cfg g k with
        | .error e => (row, .errored to_addr e, [rowCallEv cfg k p])
        | .ok sm =>
          let pr := pollPhase g k sm
          (successRow row sm pr.1, .success to_addr,
           rowCallEv cfg k p :: (jitterEvs cfg ++ (pr.2 ++ labelEvs cfg k sm)))

/-- The aggregate state the loop accumulates. -/
structure RunResult where
  table : List Fields
  outcomes : List Outcome
  events : List Event
  sent_count : Nat
  skipped : List (Option String)
  errors : List (String × String)
  status_reports : List (String × String)
deriving DecidableEq

/-- skipped-list contribution of one outcome. -/
def outSkip : Outcome → List (Option String)
  | .skipped e => [e]
  | _ => []

/-- errors-list contribution of one outcome. -/
def outErr : Outcome → List (String × String)
  | .errored a m => [(a, m)]
  | _ => []

/-- status_reports contribution of one outcome. -/
def outRep (cfg : Config) : Outcome → List (String × String)
  | .success a => [(a, if cfg.mode = .draft then "Draft saved" else "Sent")]
  | _ => []

/-- sent_count contribution of one outcome. -/
def outCount : Outcome → Nat
  | .success _ => 1
  | _ => 0

/-- The loop from row k onward. -/
def runFrom (cfg : Config) (g : Gmail) : Nat → List Fields → RunResult
  | _, [] => ⟨[], [], [], 0, [], [], []⟩
  | k, r :: rs =>
    let st := processRow cfg g k r
    let rest := runFrom cfg g (k + 1) rs
    ⟨st.1 :: rest.table, st.2.1 :: rest.outcomes, st.2.2 ++ rest.events,
     outCount st.2.1 + rest.sent_count, outSkip st.2.1 ++ rest.skipped,
     outErr st.2.1 ++ rest.errors, outRep cfg st.2.1 ++ rest.status_reports⟩

/-- One invocation of the send loop over the whole uploaded table:
ensure the identifier columns exist, then process every row in order. -/
def run (cfg : Config) (g : Gmail) (table : List Fields) : RunResult :=
  runFrom cfg g 0 (table.map ensureCols)

/-- Row positions of the provider send / draft calls in a trace. -/
def dispatched (evs : List Event) : List Nat :=
  evs.filterMap (fun e =>
    match e with
    | .sendCall i _ _ => some i
    | .draftCall i _ => some i
    | _ => none)

/-- Whether an Except value is a success. -/
def exOk {α : Type} : Except String α → Bool
  | .ok _ => true
  | .error _ => false

/-- A row reaches the provider call exactly when its address extracts
and both templates render without an exception. -/
def eligible (sT bT : String) (row : Fields) : Bool :=
  (extract_email (pyStrip (fgetD row "Email" ""))).isSome
    && exOk (pyFormat sT row) && exOk (pyFormat bT row)

/-- Positions (from k) of the eligible rows of a table. -/
def eligRows (sT bT : String) (k : Nat) : List Fields → List Nat
  | [] => []
  | r :: rs =>
    if eligible sT bT r then k :: eligRows sT bT (k + 1) rs
    else eligRows sT bT (k + 1) rs

/-! ### Concrete fixtures for evaluating the model -/

/-- Oracle in which every call succeeds and the header poll answers at
the first attempt. -/
def gOk : Gmail :=
  { send := fun _ _ => .ok ⟨"m1", "T1"⟩
    draftCreate := fun _ => .ok ⟨"d1", "T1"⟩
    pollHeader := fun _ _ => some "<mid-1@mail.example>" }

/-- Oracle in which calls succeed but the Message-ID poll never finds
the header. -/
def gNoHdr : Gmail :=
  { send := fun _ _ => .ok ⟨"m1", "T1"⟩
    draftCreate := fun _ => .ok ⟨"d1", "T1"⟩
    pollHeader := fun _ _ => none }

/-- Oracle reporting a throttling error on the first send attempt of a
row and success on every later attempt. -/
def gThrottle : Gmail :=
  { send := fun _ attempt =>
      match attempt with
      | 0 => .error "Rate limit exceeded"
      | _ + 1 => .ok ⟨"m1", "T1"⟩
    draftCreate := fun _ => .error "Rate limit exceeded"
    pollHeader := fun _ _ => none }

/-- New-mode configuration with placeholder-free templates. -/
def cfgNew : Config :=
  { subjectT := "Hi", bodyT := "Body", mode := .newEmail, delay := 30, labelId := none }

/-- Reply-mode configuration with placeholder-free templates. -/
def cfgReply : Config :=
  { subjectT := "Hi", bodyT := "Body", mode := .reply, delay := 30, labelId := none }

/-- Draft-mode configuration with placeholder-free templates. -/
def cfgDraft : Config :=
  { subjectT := "Hi", bodyT := "Body", mode := .draft, delay := 30, labelId := none }

/-- A row that a previous invocation already sent: its Status column
says Sent and both identifiers are populated. -/
def rowSent : Fields :=
  [("Email", "a@b.com"), ("Status", "Sent"), ("ThreadId", "T0"), ("RfcMessageId", "M0")]

/-- A fresh valid row. -/
def rowA : Fields :=
  [("Email", "a@b.com"), ("ThreadId", ""), ("RfcMessageId", "")]

/-- A second fresh valid row. -/
def rowC : Fields :=
  [("Email", "c@d.com"), ("ThreadId", ""), ("RfcMessageId", "")]

/-- A row whose email field has no extractable address. -/
def rowBad : Fields :=
  [("Email", "not-an-email"), ("ThreadId", ""), ("RfcMessageId", "")]

/-- A Reply-mode row whose RfcMessageId cell was NaN (str() image
"nan") while its ThreadId is a real identifier. -/
def rowNan : Fields :=
  [("Email", "a@b.com"), ("ThreadId", "t1"), ("RfcMessageId", "nan")]

/-- A Reply-mode row with a blank ThreadId. -/
def rowBlankTid : Fields :=
  [("Email", "a@b.com"), ("ThreadId", ""), ("RfcMessageId", "x")]

/-! ## Helper lemmas -/

theorem findLabelLoop_of_forall_ne {n : String} :
    ∀ {ls : List GLabel}, (∀ l ∈ ls, strLower l.name ≠ strLower n) →
      findLabelLoop n ls = none := by
  intro ls
  induction ls with
  | nil => intro _; rfl
  | cons l rest ih =>
    intro h
    have hl := h l (List.mem_cons_self l rest)
    simp only [findLabelLoop, if_neg hl]
    exact ih (fun x hx => h x (List.mem_cons_of_mem l hx))

theorem findLabelLoop_of_exists {n : String} :
    ∀ {ls : List GLabel}, (∃ l ∈ ls, strLower l.name = strLower n) →
      ∃ l ∈ ls, strLower l.name = strLower n ∧ findLabelLoop n ls = some l.id := by
  intro ls
  induction ls with
  | nil => rintro ⟨l, hl, _⟩; exact absurd hl (List.not_mem_nil l)
  | cons l rest ih =>
    rintro ⟨l', hl', hmatch⟩
    by_cases hl : strLower l.name = strLower n
    · exact ⟨l, List.mem_cons_self l rest, hl, by simp only [findLabelLoop, if_pos hl]⟩
    · rcases List.mem_cons.mp hl' with heq | hmem
      · exact absurd (heq ▸ hmatch) hl
      · obtain ⟨x, hx, hxm, hxf⟩ := ih ⟨l', hmem, hmatch⟩
        exact ⟨x, List.mem_cons_of_mem l hx, hxm,
          by simp only [findLabelLoop, if_neg hl]; exact hxf⟩

theorem pyFmtGo_name_read (fields : Fields) (rest : List Char) :
    ∀ (l acc : List Char), (∀ c ∈ l, c ≠ '}') →
      pyFmtGo fields (some acc) (l ++ '}' :: rest) =
        pyFmtGo fields (some (l.reverse ++ acc)) ('}' :: rest) := by
  intro l
  induction l with
  | nil => intro acc _; simp
  | cons c cs ih =>
    intro acc h
    have hc : c ≠ '}' := h c (List.mem_cons_self c cs)
    rw [List.cons_append, pyFmtGo.eq_9 fields acc c (cs ++ '}' :: rest) (fun hh => hc hh),
      ih (c :: acc) (fun x hx => h x (List.mem_cons_of_mem c hx))]
    simp [List.append_assoc]

theorem fget?_fset_self (k v : String) : ∀ r : Fields, fget? (fset r k v) k = some v := by
  intro r
  induction r with
  | nil => simp [fset, fget?, List.find?]
  | cons p rest ih =>
    by_cases h : p.1 = k
    · simp [fset, h, fget?, List.find?]
    · simp only [fset]
      rw [if_neg h]
      simp only [fget?, List.find?] at ih ⊢
      rw [decide_eq_false h]
      exact ih

theorem fget?_fset_ne (k v k' : String) (hne : k' ≠ k) :
    ∀ r : Fields, fget? (fset r k v) k' = fget? r k' := by
  intro r
  induction r with
  | nil => simp [fset, fget?, List.find?, decide_eq_false (Ne.symm hne), decide_eq_false hne]
  | cons p rest ih =>
    by_cases h : p.1 = k
    · simp only [fset]
      rw [if_pos h]
      simp only [fget?, List.find?]
      rw [decide_eq_false (Ne.symm hne), decide_eq_false (h ▸ Ne.symm hne)]
    · simp only [fset]
      rw [if_neg h]
      simp only [fget?, List.find?] at ih ⊢
      cases hd : decide (p.1 = k') <;> simp [hd, ih]

theorem fgetD_fset_self (r : Fields) (k v d : String) : fgetD (fset r k v) k d = v := by
  simp [fgetD, fget?_fset_self]

theorem fgetD_fset_ne (r : Fields) (k v k' d : String) (hne : k' ≠ k) :
    fgetD (fset r k v) k' d = fgetD r k' d := by
  simp [fgetD, fget?_fset_ne k v k' hne]

theorem processRow_skip (cfg : Config) (g : Gmail) (k : Nat) (row : Fields)
    (hx : extract_email (pyStrip (fgetD row "Email" "")) = none) :
    processRow cfg g k row = (row, .skipped (fget? row "Email"), []) := by
  simp only [processRow, hx]

theorem processRow_subjErr (cfg : Config) (g : Gmail) (k : Nat) (row : Fields)
    (to_addr e : String)
    (hx : extract_email (pyStrip (fgetD row "Email" "")) = some to_addr)
    (hs : pyFormat cfg.subjectT row = .error e) :
    processRow cfg g k row = (row, .errored to_addr e, []) := by
  simp only [processRow, hx, hs]

theorem processRow_bodyErr (cfg : Config) (g : Gmail) (k : Nat) (row : Fields)
    (to_addr subj e : String)
    (hx : extract_email (pyStrip (fgetD row "Email" "")) = some to_addr)
    (hs : pyFormat cfg.subjectT row = .ok subj)
    (hb : pyFormat cfg.bodyT row = .error e) :
    processRow cfg g k row = (row, .errored to_addr e, []) := by
  simp only [processRow, hx, hs, hb]

theorem processRow_callErr (cfg : Config) (g : Gmail) (k : Nat) (row : Fields)
    (to_addr subj body e : String)
    (hx : extract_email (pyStrip (fgetD row "Email" "")) = some to_addr)
    (hs : pyFormat cfg.subjectT row = .ok subj)
    (hb : pyFormat cfg.bodyT row = .ok body)
    (hc : rowCall cfg g k = .error e) :
    processRow cfg g k row = (row, .errored to_addr e,
      [rowCallEv cfg k (buildMsgBody cfg row to_addr subj body)]) := by
  simp only [processRow, hx, hs, hb, hc]

theorem processRow_callOk (cfg : Config) (g : Gmail) (k : Nat) (row : Fields)
    (to_addr subj body : String) (sm : SendResult)
    (hx : extract_email (pyStrip (fgetD row "Email" "")) = some to_addr)
    (hs : pyFormat cfg.subjectT row = .ok subj)
    (hb : pyFormat cfg.bodyT row = .ok body)
    (hc : rowCall cfg g k = .ok sm) :
    processRow cfg g k row =
      (successRow row sm (pollPhase g k sm).1, .success to_addr,
       rowCallEv cfg k (buildMsgBody cfg row to_addr subj body) ::
         (jitterEvs cfg ++ ((pollPhase g k sm).2 ++ labelEvs cfg k sm))) := by
  simp only [processRow, hx, hs, hb, hc]

theorem dispatched_append (a b : List Event) :
    dispatched (a ++ b) = dispatched a ++ dispatched b := by
  simp [dispatched, List.filterMap_append]

theorem dispatched_jitterEvs (cfg : Config) : dispatched (jitterEvs cfg) = [] := by
  unfold jitterEvs
  split <;> rfl

theorem dispatched_pollGo (g : Gmail) (k : Nat) :
    ∀ (n attempt : Nat), dispatched (pollGo g k attempt n).2 = [] := by
  intro n
  induction n with
  | zero => intro _; rfl
  | succ n ih =>
    intro attempt
    simp only [pollGo]
    cases g.pollHeader k attempt with
    | some h => rfl
    | none => simp only [dispatched_append (a := [Event.sleep (3 / 2 : ℚ) (5 / 2),
        Event.getCall k attempt]), ih (attempt + 1)]; rfl

theorem dispatched_pollPhase (g : Gmail) (k : Nat) (sm : SendResult) :
    dispatched (pollPhase g k sm).2 = [] := by
  unfold pollPhase
  split
  · exact dispatched_pollGo g k 5 0
  · rfl

theorem dispatched_labelEvs (cfg : Config) (k : Nat) (sm : SendResult) :
    dispatched (labelEvs cfg k sm) = [] := by
  unfold labelEvs
  split <;> rfl

theorem dispatched_rowCallEv (cfg : Config) (k : Nat) (p : Payload) :
    dispatched [rowCallEv cfg k p] = [k] := by
  unfold rowCallEv
  split <;> rfl

theorem dispatched_processRow (cfg : Config) (g : Gmail) (k : Nat) (row : Fields) :
    dispatched (processRow cfg g k row).2.2 =
      if eligible cfg.subjectT cfg.bodyT row = true then [k] else [] := by
  cases hx : extract_email (pyStrip (fgetD row "Email" "")) with
  | none =>
    rw [processRow_skip cfg g k row hx]
    simp [eligible, hx, dispatched]
  | some to_addr =>
    cases hs : pyFormat cfg.subjectT row with
    | error e =>
      rw [processRow_subjErr cfg g k row to_addr e hx hs]
      simp [eligible, hx, hs, exOk, dispatched]
    | ok subj =>
      cases hb : pyFormat cfg.bodyT row with
      | error e =>
        rw [processRow_bodyErr cfg g k row to_addr subj e hx hs hb]
        simp [eligible, hx, hs, hb, exOk, dispatched]
      | ok body =>
        have helig : eligible cfg.subjectT cfg.bodyT row = true := by
          simp [eligible, hx, hs, hb, exOk]
        rw [if_pos helig]
        cases hc : rowCall cfg g k with
        | error e =>
          rw [processRow_callErr cfg g k row to_addr subj body e hx hs hb hc]
          exact dispatched_rowCallEv cfg k _
        | ok sm =>
          rw [processRow_callOk cfg g k row to_addr subj body sm hx hs hb hc]
          have : dispatched (rowCallEv cfg k (buildMsgBody cfg row to_addr subj body) ::
              (jitterEvs cfg ++ ((pollPhase g k sm).2 ++ labelEvs cfg k sm))) =
              dispatched [rowCallEv cfg k (buildMsgBody cfg row to_addr subj body)] ++
                dispatched (jitterEvs cfg ++ ((pollPhase g k sm).2 ++ labelEvs cfg k sm)) := by
            simpa using dispatched_append
              [rowCallEv cfg k (buildMsgBody cfg row to_addr subj body)]
              (jitterEvs cfg ++ ((pollPhase g k sm).2 ++ labelEvs cfg k sm))
          rw [this, dispatched_rowCallEv, dispatched_append, dispatched_jitterEvs,
            dispatched_append, dispatched_pollPhase, dispatched_labelEvs]
          simp

theorem runFrom_cons (cfg : Config) (g : Gmail) (k : Nat) (r : Fields) (rs : List Fields) :
    runFrom cfg g k (r :: rs) =
      ⟨(processRow cfg g k r).1 :: (runFrom cfg g (k + 1) rs).table,
       (processRow cfg g k r).2.1 :: (runFrom cfg g (k + 1) rs).outcomes,
       (processRow cfg g k r).2.2 ++ (runFrom cfg g (k + 1) rs).events,
       outCount (processRow cfg g k r).2.1 + (runFrom cfg g (k + 1) rs).sent_count,
       outSkip (processRow cfg g k r).2.1 ++ (runFrom cfg g (k + 1) rs).skipped,
       outErr (processRow cfg g k r).2.1 ++ (runFrom cfg g (k + 1) rs).errors,
       outRep cfg (processRow cfg g k r).2.1 ++ (runFrom cfg g (k + 1) rs).status_reports⟩ := rfl

theorem eligRows_cons (sT bT : String) (k : Nat) (r : Fields) (rs : List Fields) :
    eligRows sT bT k (r :: rs) =
      if eligible sT bT r = true then k :: eligRows sT bT (k + 1) rs
      else eligRows sT bT (k + 1) rs := rfl

theorem dispatched_runFrom (cfg : Config) (g : Gmail) :
    ∀ (rows : List Fields) (k : Nat),
      dispatched (runFrom cfg g k rows).events = eligRows cfg.subjectT cfg.bodyT k rows := by
  intro rows
  induction rows with
  | nil => intro _; rfl
  | cons r rs ih =>
    intro k
    rw [runFrom_cons]
    show dispatched ((processRow cfg g k r).2.2 ++ (runFrom cfg g (k + 1) rs).events) = _
    rw [dispatched_append, dispatched_processRow, ih (k + 1), eligRows_cons]
    by_cases h : eligible cfg.subjectT cfg.bodyT r = true
    · rw [if_pos h, if_pos h]
      rfl
    · rw [if_neg h, if_neg h]
      rfl

theorem mem_eligRows (sT bT : String) :
    ∀ (rows : List Fields) (k i : Nat),
      i ∈ eligRows sT bT k rows ↔
        ∃ j r, rows[j]? = some r ∧ eligible sT bT r = true ∧ i = k + j := by
  intro rows
  induction rows with
  | nil => intro k i; simp [eligRows]
  | cons r rs ih =>
    intro k i
    rw [eligRows_cons]
    by_cases h : eligible sT bT r = true
    · rw [if_pos h]
      simp only [List.mem_cons, ih (k + 1)]
      constructor
      · rintro (rfl | ⟨j, r', hj, he, rfl⟩)
        · exact ⟨0, r, by simp, h, by omega⟩
        · exact ⟨j + 1, r', by simpa using hj, he, by omega⟩
      · rintro ⟨j, r', hj, he, hi⟩
        cases j with
        | zero =>
          left
          omega
        | succ j =>
          right
          exact ⟨j, r', by simpa using hj, he, by omega⟩
    · rw [if_neg h]
      rw [ih (k + 1)]
      constructor
      · rintro ⟨j, r', hj, he, rfl⟩
        exact ⟨j + 1, r', by simpa using hj, he, by omega⟩
      · rintro ⟨j, r', hj, he, hi⟩
        cases j with
        | zero =>
          rw [List.getElem?_cons_zero] at hj
          cases hj
          exact absurd he h
        | succ j =>
          exact ⟨j, r', by simpa using hj, he, by omega⟩

theorem runFrom_table_getElem (cfg : Config) (g : Gmail) :
    ∀ (rows : List Fields) (k i : Nat),
      (runFrom cfg g k rows).table[i]? =
        (rows[i]?).map (fun r => (processRow cfg g (k + i) r).1) := by
  intro rows
  induction rows with
  | nil => intro k i; simp [runFrom]
  | cons r rs ih =>
    intro k i
    rw [runFrom_cons]
    cases i with
    | zero => simp
    | succ i =>
      simp only [List.getElem?_cons_succ]
      rw [ih (k + 1) i]
      have : k + 1 + i = k + (i + 1) := by omega
      rw [this]

theorem runFrom_outcomes_getElem (cfg : Config) (g : Gmail) :
    ∀ (rows : List Fields) (k i : Nat),
      (runFrom cfg g k rows).outcomes[i]? =
        (rows[i]?).map (fun r => (processRow cfg g (k + i) r).2.1) := by
  intro rows
  induction rows with
  | nil => intro k i; simp [runFrom]
  | cons r rs ih =>
    intro k i
    rw [runFrom_cons]
    cases i with
    | zero => simp
    | succ i =>
      simp only [List.getElem?_cons_succ]
      rw [ih (k + 1) i]
      have : k + 1 + i = k + (i + 1) := by omega
      rw [this]

theorem string_data_append (a b : String) : (a ++ b).data = a.data ++ b.data := rfl

theorem string_mk_data (s : String) : String.mk s.data = s := rfl

theorem pyFormat_single_field (name : String) (fields : Fields)
    (hname : ∀ c ∈ name.data, c ≠ '{' ∧ c ≠ '}') (hnil : name.data ≠ []) :
    pyFormat ("\x7b" ++ name ++ "\x7d") fields =
      (match fget? fields name with
       | some v => .ok v
       | none => .error (keyErrMsg name)) := by
  have hdata : ("\x7b" ++ name ++ "\x7d").data = '{' :: (name.data ++ ['}']) := by
    rw [string_data_append, string_data_append]
    rfl
  obtain ⟨c, cs, hcs⟩ : ∃ c cs, name.data = c :: cs := by
    cases h : name.data with
    | nil => exact absurd h hnil
    | cons c cs => exact ⟨c, cs, rfl⟩
  have hc : c ≠ '{' := (hname c (by rw [hcs]; exact List.mem_cons_self c cs)).1
  have step1 : pyFmtGo fields none ('{' :: (name.data ++ ['}'])) =
      pyFmtGo fields (some []) (name.data ++ ['}']) := by
    rw [hcs]
    refine pyFmtGo.eq_4 fields (c :: (cs ++ ['}'])) ?_
    intro rest1 hr
    injection hr with h1 _
    exact hc h1
  have step2 : pyFmtGo fields (some []) (name.data ++ ['}']) =
      pyFmtGo fields (some name.data.reverse) ['}'] := by
    have h := pyFmtGo_name_read fields [] name.data []
      (fun x hx => (hname x hx).2)
    rw [List.append_nil] at h
    exact h
  have step3 : pyFmtGo fields (some name.data.reverse) ['}'] =
      (match fget? fields name with
       | some v => (pyFmtGo fields none []).map (fun t => v.data ++ t)
       | none => .error (keyErrMsg name)) := by
    rw [pyFmtGo.eq_8, List.reverse_reverse, string_mk_data]
  unfold pyFormat
  rw [hdata, step1, step2, step3]
  cases h : fget? fields name with
  | none => rfl
  | some v =>
    rw [pyFmtGo.eq_1]
    show Except.ok (String.mk (v.data ++ [])) = Except.ok v
    rw [List.append_nil, string_mk_data]

/-! ## Claim theorems -/

/-- C1 counterexample: a row whose Status cell already says Sent (with
both identifiers populated from the earlier run) is dispatched again by
the next invocation — the loop issues a send call for row 0 even though
its Status is Sent, because the code never consults a Status column. -/
theorem c1_counterexample :
    fget? rowSent "Status" = some "Sent" ∧
      fget? rowSent "ThreadId" = some "T0" ∧
      dispatched (run cfgNew gOk [rowSent]).events = [0] := by
  refine ⟨by decide, by decide, by decide⟩

/-- C1 amended: the code keeps no per-row Status and never reads one:
every row whose email extracts and whose subject and body templates
render without an exception receives a provider call in every
invocation, whatever its Status / ThreadId / RfcMessageId cells hold, so
re-running with the persisted table re-sends previously sent rows. -/
theorem c1_amended_no_idempotent_resume (cfg : Config) (g : Gmail)
    (table : List Fields) (i : Nat) (row : Fields)
    (hrow : (table.map ensureCols)[i]? = some row)
    (helig : eligible cfg.subjectT cfg.bodyT row = true) :
    i ∈ dispatched (run cfg g table).events := by
  unfold run
  rw [dispatched_runFrom, mem_eligRows]
  exact ⟨i, row, hrow, helig, by omega⟩

/-- C1 witness: the amended statement evaluated on the already-sent
row. -/
theorem c1_witness : 0 ∈ dispatched (run cfgNew gOk [rowSent]).events :=
  c1_amended_no_idempotent_resume cfgNew gOk [rowSent] 0 rowSent (by decide) (by decide)

/-- C2 counterexample: with two Pending rows and any claimed batch bound
k = 1 < 2, one invocation still dispatches both rows — the dispatched
positions are [0, 1], not a length-1 prefix. -/
theorem c2_counterexample :
    dispatched (run cfgNew gOk [rowA, rowC]).events = [0, 1] ∧
      (dispatched (run cfgNew gOk [rowA, rowC]).events).length ≠ 1 := by
  refine ⟨by decide, by decide⟩

/-- C2 amended: the code has no BatchSize: in every mode (New, Reply and
Draft alike) a single invocation dispatches exactly the rows that pass
address extraction and template rendering, in table order, with no
truncation — the right-hand side does not depend on the mode or on any
bound. -/
theorem c2_amended_no_batch_bound (cfg : Config) (g : Gmail) (table : List Fields) :
    dispatched (run cfg g table).events =
      eligRows cfg.subjectT cfg.bodyT 0 (table.map ensureCols) := by
  unfold run
  exact dispatched_runFrom cfg g (table.map ensureCols) 0

/-- C3 counterexample: rendering a template whose placeholder names a
column absent from the row raises KeyError (it is not replaced by an
empty string), and a NaN cell renders as the text nan, not as the empty
string. -/
theorem c3_counterexample :
    pyFormat "Hello \x7bName\x7d" [("Email", "a@b.com")] = .error (keyErrMsg "Name") ∧
      pyFormat "\x7bName\x7d" [("Name", "nan")] = .ok "nan" := by
  refine ⟨rfl, rfl⟩

/-- C3 amended: the renderer is not total with empty-string fallback:
for every row, a placeholder naming a column absent from the row makes
format raise KeyError carrying the quoted field name (caught by the
per-row handler, which records the row as an error), while a present
column substitutes its cell text verbatim (a NaN cell therefore renders
as nan). -/
theorem c3_amended_missing_key_raises (name : String) (fields : Fields)
    (hname : ∀ c ∈ name.data, c ≠ '{' ∧ c ≠ '}') (hnil : name.data ≠ []) :
    (fget? fields name = none →
       pyFormat ("\x7b" ++ name ++ "\x7d") fields = .error (keyErrMsg name)) ∧
    (∀ v, fget? fields name = some v →
       pyFormat ("\x7b" ++ name ++ "\x7d") fields = .ok v) := by
  constructor
  · intro h
    rw [pyFormat_single_field name fields hname hnil, h]
  · intro v h
    rw [pyFormat_single_field name fields hname hnil, h]

/-- C3 witness: the amended statement evaluated at field Name over a row
that lacks that column, and over a row that has it. -/
theorem c3_witness :
    pyFormat ("\x7b" ++ "Name" ++ "\x7d") [("Email", "a@b.com")] = .error (keyErrMsg "Name") ∧
      pyFormat ("\x7b" ++ "Name" ++ "\x7d") [("Name", "Bob")] = .ok "Bob" :=
  ⟨(c3_amended_missing_key_raises "Name" [("Email", "a@b.com")] (by decide) (by decide)).1 rfl,
   (c3_amended_missing_key_raises "Name" [("Name", "Bob")] (by decide) (by decide)).2 "Bob" rfl⟩

/-- C4 counterexample: a Reply-mode row whose RfcMessageId cell was NaN
(stringified to nan) but whose ThreadId is valid is NOT dispatched
New-style: the payload still carries the thread-association field and
threading headers — with the literal text nan in both headers. -/
theorem c4_counterexample :
    (run cfgReply gOk [rowNan]).events.head? =
      some (.sendCall 0 0 ⟨"a@b.com", "Hi", "Body", some "nan", some "nan", some "t1"⟩) := by
  decide

/-- C4 amended: under Reply intent the code degrades to a New-style
payload exactly when the stripped ThreadId is empty or nan
(case-insensitive) or the stripped RfcMessageId is empty; in that case
the row is still dispatched (never skipped) and nothing is raised, but
no flag is recorded.  (An RfcMessageId of nan with a valid ThreadId
still produces a Reply payload, and the progress-page variant skips the
row instead.) -/
theorem c4_amended_degrade_condition (cfg : Config) (g : Gmail) (k : Nat)
    (row : Fields) (to_addr subj body tid rid : String)
    (hmode : cfg.mode = .reply)
    (htid : fget? row "ThreadId" = some tid)
    (hrid : fget? row "RfcMessageId" = some rid)
    (hdeg : pyStrip tid = "" ∨ strLower (pyStrip tid) = "nan" ∨ pyStrip rid = "")
    (hx : extract_email (pyStrip (fgetD row "Email" "")) = some to_addr)
    (hs : pyFormat cfg.subjectT row = .ok subj)
    (hb : pyFormat cfg.bodyT row = .ok body) :
    (processRow cfg g k row).2.2.head? =
      some (.sendCall k 0 ⟨to_addr, subj, body, none, none, none⟩) ∧
    ∀ e, (processRow cfg g k row).2.1 ≠ .skipped e := by
  have hdraft : ¬ cfg.mode = .draft := by rw [hmode]; intro h; cases h
  have hbuild : buildMsgBody cfg row to_addr subj body = ⟨to_addr, subj, body, none, none, none⟩ := by
    unfold buildMsgBody
    rw [if_pos ⟨hmode, by rw [htid]; rfl, by rw [hrid]; rfl⟩]
    simp only [htid, hrid, Option.getD_some]
    rw [if_neg]
    rintro ⟨h1, h2, h3⟩
    rcases hdeg with h | h | h
    · exact h1 h
    · exact h2 h
    · exact h3 h
  have hev : rowCallEv cfg k (buildMsgBody cfg row to_addr subj body) =
      .sendCall k 0 ⟨to_addr, subj, body, none, none, none⟩ := by
    unfold rowCallEv
    rw [if_neg hdraft, hbuild]
  cases hc : rowCall cfg g k with
  | error e =>
    rw [processRow_callErr cfg g k row to_addr subj body e hx hs hb hc]
    exact ⟨by rw [List.head?_cons, hev], fun e' h => by cases h⟩
  | ok sm =>
    rw [processRow_callOk cfg g k row to_addr subj body sm hx hs hb hc]
    exact ⟨by rw [List.head?_cons, hev], fun e' h => by cases h⟩

/-- C4 witness: the amended statement evaluated on a Reply-mode row with
a blank ThreadId: the row is dispatched with a plain payload. -/
theorem c4_witness :
    (processRow cfgReply gOk 0 rowBlankTid).2.2.head? =
      some (.sendCall 0 0 ⟨"a@b.com", "Hi", "Body", none, none, none⟩) ∧
    ∀ e, (processRow cfgReply gOk 0 rowBlankTid).2.1 ≠ .skipped e :=
  c4_amended_degrade_condition cfgReply gOk 0 rowBlankTid "a@b.com" "Hi" "Body" "" "x"
    rfl (by decide) (by decide) (Or.inl (by decide)) (by decide) rfl rfl

/-- C5 counterexample: the provider throttles the first send attempt of
the row and would succeed on a retry, yet the run records the row as an
error after exactly one call — the trace holds a single send event at
attempt 0, there is no backoff sleep, and nothing was sent. -/
theorem c5_counterexample :
    (run cfgNew gThrottle [rowA]).errors = [("a@b.com", "Rate limit exceeded")] ∧
      (run cfgNew gThrottle [rowA]).events =
        [.sendCall 0 0 ⟨"a@b.com", "Hi", "Body", none, none, none⟩] ∧
      (run cfgNew gThrottle [rowA]).sent_count = 0 ∧
      gThrottle.send 0 1 = .ok ⟨"m1", "T1"⟩ := by
  refine ⟨by decide, by decide, by decide, rfl⟩

/-- C5 amended: on any provider exception (throttling included) the code
performs no retry and no backoff wait: the row makes a single send
attempt (attempt 0), its trace is exactly that one call, the
(address, message) pair is appended to the errors list, and the loop
continues with the remaining rows. -/
theorem c5_amended_single_attempt (cfg : Config) (g : Gmail) (k : Nat)
    (row : Fields) (rs : List Fields) (to_addr subj body e : String)
    (hmode : cfg.mode ≠ .draft)
    (hx : extract_email (pyStrip (fgetD row "Email" "")) = some to_addr)
    (hs : pyFormat cfg.subjectT row = .ok subj)
    (hb : pyFormat cfg.bodyT row = .ok body)
    (hsend : g.send k 0 = .error e) :
    processRow cfg g k row = (row, .errored to_addr e,
      [.sendCall k 0 (buildMsgBody cfg row to_addr subj body)]) ∧
    (runFrom cfg g k (row :: rs)).errors =
      (to_addr, e) :: (runFrom cfg g (k + 1) rs).errors ∧
    (runFrom cfg g k (row :: rs)).outcomes =
      .errored to_addr e :: (runFrom cfg g (k + 1) rs).outcomes ∧
    (runFrom cfg g k (row :: rs)).events =
      [.sendCall k 0 (buildMsgBody cfg row to_addr subj body)] ++
        (runFrom cfg g (k + 1) rs).events := by
  have hc : rowCall cfg g k = .error e := by
    unfold rowCall
    rw [if_neg hmode]
    exact hsend
  have hev : rowCallEv cfg k (buildMsgBody cfg row to_addr subj body) =
      .sendCall k 0 (buildMsgBody cfg row to_addr subj body) := by
    unfold rowCallEv
    rw [if_neg hmode]
  have hp : processRow cfg g k row = (row, .errored to_addr e,
      [.sendCall k 0 (buildMsgBody cfg row to_addr subj body)]) := by
    rw [processRow_callErr cfg g k row to_addr subj body e hx hs hb hc, hev]
  refine ⟨hp, ?_, ?_, ?_⟩
  · rw [runFrom_cons, hp]
    rfl
  · rw [runFrom_cons, hp]
  · rw [runFrom_cons, hp]

/-- C5 witness: the amended statement evaluated on the throttling
oracle. -/
theorem c5_witness :
    processRow cfgNew gThrottle 0 rowA = (rowA, .errored "a@b.com" "Rate limit exceeded",
      [.sendCall 0 0 (buildMsgBody cfgNew rowA "a@b.com" "Hi" "Body")]) ∧
    (runFrom cfgNew gThrottle 0 [rowA]).errors =
      ("a@b.com", "Rate limit exceeded") :: (runFrom cfgNew gThrottle 1 []).errors ∧
    (runFrom cfgNew gThrottle 0 [rowA]).outcomes =
      .errored "a@b.com" "Rate limit exceeded" :: (runFrom cfgNew gThrottle 1 []).outcomes ∧
    (runFrom cfgNew gThrottle 0 [rowA]).events =
      [.sendCall 0 0 (buildMsgBody cfgNew rowA "a@b.com" "Hi" "Body")] ++
        (runFrom cfgNew gThrottle 1 []).events :=
  c5_amended_single_attempt cfgNew gThrottle 0 rowA [] "a@b.com" "Hi" "Body"
    "Rate limit exceeded" (by decide) (by decide) rfl rfl rfl

/-- C6 counterexample: the send succeeds and the Message-ID polling
fails all five attempts: the run counts the row as sent, ThreadId is
populated from the response, yet RfcMessageId stays empty — success is
claimed with exactly one of the two identifiers populated. -/
theorem c6_counterexample :
    (run cfgNew gNoHdr [rowA]).table =
        [[("Email", "a@b.com"), ("ThreadId", "T1"), ("RfcMessageId", "")]] ∧
      (run cfgNew gNoHdr [rowA]).sent_count = 1 ∧
      (run cfgNew gNoHdr [rowA]).status_reports = [("a@b.com", "Sent")] := by
  refine ⟨by decide, by decide, by decide⟩

/-- C6 amended: after a successful call the row is updated by
successRow: ThreadId is taken from the response (old cell kept when the
response field is empty), while RfcMessageId is recorded only when the
best-effort five-attempt polling found the Message-ID header; when the
polling comes back empty and the response carried a thread id, the row
is flagged successful with ThreadId set and RfcMessageId left at its old
value — the two identifiers are not written atomically. -/
theorem c6_amended_identifier_recording (cfg : Config) (g : Gmail) (k : Nat)
    (row : Fields) (to_addr subj body : String) (sm : SendResult)
    (hx : extract_email (pyStrip (fgetD row "Email" "")) = some to_addr)
    (hs : pyFormat cfg.subjectT row = .ok subj)
    (hb : pyFormat cfg.bodyT row = .ok body)
    (hc : rowCall cfg g k = .ok sm) :
    (processRow cfg g k row).1 = successRow row sm (pollPhase g k sm).1 ∧
    (processRow cfg g k row).2.1 = .success to_addr ∧
    ((pollPhase g k sm).1 = none → sm.threadId ≠ "" →
       fgetD (processRow cfg g k row).1 "ThreadId" "" = sm.threadId ∧
       fgetD (processRow cfg g k row).1 "RfcMessageId" "" =
         fgetD row "RfcMessageId" "") := by
  have hp := processRow_callOk cfg g k row to_addr subj body sm hx hs hb hc
  refine ⟨by rw [hp], by rw [hp], ?_⟩
  intro hpoll htid
  rw [hp]
  show fgetD (successRow row sm (pollPhase g k sm).1) "ThreadId" "" = sm.threadId ∧
    fgetD (successRow row sm (pollPhase g k sm).1) "RfcMessageId" "" =
      fgetD row "RfcMessageId" ""
  rw [hpoll]
  unfold successRow
  constructor
  · rw [fgetD_fset_ne _ _ _ _ _ (by decide), fgetD_fset_self, if_pos htid]
  · rw [fgetD_fset_self]

/-- C6 witness: the amended statement evaluated on the oracle whose
polling never finds the header. -/
theorem c6_witness :
    (processRow cfgNew gNoHdr 0 rowA).2.1 = .success "a@b.com" ∧
      fgetD (processRow cfgNew gNoHdr 0 rowA).1 "ThreadId" "" = "T1" ∧
      fgetD (processRow cfgNew gNoHdr 0 rowA).1 "RfcMessageId" "" =
        fgetD rowA "RfcMessageId" "" := by
  have h := c6_amended_identifier_recording cfgNew gNoHdr 0 rowA "a@b.com" "Hi" "Body"
    ⟨"m1", "T1"⟩ (by decide) rfl rfl rfl
  exact ⟨h.2.1, (h.2.2 rfl (by decide)).1, (h.2.2 rfl (by decide)).2⟩

/-- C7: a row whose email field has no extractable address is skipped:
its cells (ThreadId and RfcMessageId included) pass through the
invocation unchanged, its outcome is the skipped entry, and no provider
call is issued for its position. -/
theorem c7_skip_no_call (cfg : Config) (g : Gmail) (table : List Fields)
    (i : Nat) (row : Fields)
    (hrow : (table.map ensureCols)[i]? = some row)
    (hx : extract_email (pyStrip (fgetD row "Email" "")) = none) :
    (run cfg g table).table[i]? = some row ∧
    (run cfg g table).outcomes[i]? = some (.skipped (fget? row "Email")) ∧
    i ∉ dispatched (run cfg g table).events := by
  refine ⟨?_, ?_, ?_⟩
  · unfold run
    rw [runFrom_table_getElem, hrow, Option.map_some', processRow_skip cfg g (0 + i) row hx]
  · unfold run
    rw [runFrom_outcomes_getElem, hrow, Option.map_some', processRow_skip cfg g (0 + i) row hx]
  · unfold run
    rw [dispatched_runFrom, mem_eligRows]
    rintro ⟨j, r', hj, he, hij⟩
    have hj' : j = i := by omega
    subst hj'
    rw [hrow] at hj
    cases hj
    simp [eligible, hx] at he

/-- C7 witness: the skip statement evaluated on a row holding
not-an-email. -/
theorem c7_witness :
    (run cfgNew gOk [rowBad]).table[0]? = some rowBad ∧
      (run cfgNew gOk [rowBad]).outcomes[0]? = some (.skipped (fget? rowBad "Email")) ∧
      0 ∉ dispatched (run cfgNew gOk [rowBad]).events :=
  c7_skip_no_call cfgNew gOk [rowBad] 0 rowBad (by decide) (by decide)

/-- C8 counterexample: in Draft mode the jittered inter-call sleep IS
taken: the trace of a draft run is the draft call followed immediately
by the sleep with bounds 0.9 x 30 = 27 and 1.1 x 30 = 33, then the
polling sleep — Draft calls are not exempt from the delay in app.py. -/
theorem c8_counterexample :
    cfgDraft.mode = .draft ∧
      (run cfgDraft gOk [rowA]).events =
        [.draftCall 0 ⟨"a@b.com", "Hi", "Body", none, none, none⟩,
         .sleep (9 * ((30 : Nat) : ℚ) / 10) (11 * ((30 : Nat) : ℚ) / 10),
         .sleep (3 / 2) (5 / 2), .getCall 0 0] ∧
      9 * ((30 : Nat) : ℚ) / 10 = 27 ∧ 11 * ((30 : Nat) : ℚ) / 10 = 33 := by
  refine ⟨rfl, rfl, by norm_num, by norm_num⟩

/-- C8 amended: after every successful provider call — Draft calls
included — when the configured delay is positive the loop sleeps
uniform(0.9 d, 1.1 d) immediately after the call (before the Message-ID
polling and the next row); only the progress-page variant exempts
Draft mode. -/
theorem c8_amended_jitter_after_every_call (cfg : Config) (g : Gmail) (k : Nat)
    (row : Fields) (to_addr subj body : String) (sm : SendResult)
    (hx : extract_email (pyStrip (fgetD row "Email" "")) = some to_addr)
    (hs : pyFormat cfg.subjectT row = .ok subj)
    (hb : pyFormat cfg.bodyT row = .ok body)
    (hc : rowCall cfg g k = .ok sm)
    (hd : 0 < cfg.delay) :
    (processRow cfg g k row).2.2[0]? =
      some (rowCallEv cfg k (buildMsgBody cfg row to_addr subj body)) ∧
    (processRow cfg g k row).2.2[1]? =
      some (.sleep (9 * (cfg.delay : ℚ) / 10) (11 * (cfg.delay : ℚ) / 10)) := by
  rw [processRow_callOk cfg g k row to_addr subj body sm hx hs hb hc]
  constructor
  · show (rowCallEv cfg k (buildMsgBody cfg row to_addr subj body) ::
      (jitterEvs cfg ++ ((pollPhase g k sm).2 ++ labelEvs cfg k sm)))[0]? = _
    exact List.getElem?_cons_zero
  · show (rowCallEv cfg k (buildMsgBody cfg row to_addr subj body) ::
      (jitterEvs cfg ++ ((pollPhase g k sm).2 ++ labelEvs cfg k sm)))[1]? = _
    rw [List.getElem?_cons_succ]
    unfold jitterEvs
    rw [if_pos hd]
    show (Event.sleep (9 * (cfg.delay : ℚ) / 10) (11 * (cfg.delay : ℚ) / 10) ::
      ([] ++ ((pollPhase g k sm).2 ++ labelEvs cfg k sm)))[0]? = _
    exact List.getElem?_cons_zero

/-- C8 witness: the amended statement evaluated in Draft mode with
delay 30. -/
theorem c8_witness :
    (processRow cfgDraft gOk 0 rowA).2.2[0]? =
      some (rowCallEv cfgDraft 0 (buildMsgBody cfgDraft rowA "a@b.com" "Hi" "Body")) ∧
    (processRow cfgDraft gOk 0 rowA).2.2[1]? =
      some (.sleep (9 * ((30 : Nat) : ℚ) / 10) (11 * ((30 : Nat) : ℚ) / 10)) :=
  c8_amended_jitter_after_every_call cfgDraft gOk 0 rowA "a@b.com" "Hi" "Body"
    ⟨"d1", "T1"⟩ (by decide) rfl rfl rfl (by decide)

/-- C9 counterexample: sanitization keeps the hyphen, so the sanitized
part of the file name is not limited to alphanumerics and underscores as
the claim states — a hyphen survives, and a hyphen is neither
alphanumeric nor an underscore. -/
theorem c9_counterexample :
    safe_label "a-b" = "a-b" ∧ '-' ∈ (safe_label "a-b").data ∧
      '-'.isAlphanum = false ∧ '-' ≠ '_' := by
  refine ⟨rfl, ?_, rfl, by decide⟩
  decide

/-- C9 amended: the snapshot name is the deterministic concatenation of
the sanitized label and the timestamp, where sanitization maps every
character outside ASCII alphanumerics, underscore and hyphen to an
underscore; consequently the sanitized part holds only alphanumerics,
underscores and hyphens (hyphens are kept, contrary to the claim). -/
theorem c9_amended_sanitized_name (s ts : String) :
    file_name s ts = "Updated_" ++ safe_label s ++ "_" ++ ts ++ ".csv" ∧
    (safe_label s).data = s.data.map (fun c => if keepChar c then c else '_') ∧
    ∀ c ∈ (safe_label s).data, c.isAlphanum = true ∨ c = '_' ∨ c = '-' := by
  refine ⟨rfl, rfl, ?_⟩
  intro c hc
  simp only [safe_label] at hc
  rw [List.mem_map] at hc
  obtain ⟨a, _, ha⟩ := hc
  by_cases h : keepChar a = true
  · rw [if_pos h] at ha
    subst ha
    simpa [keepChar, Bool.or_eq_true, decide_eq_true_eq, or_assoc] using h
  · rw [if_neg h] at ha
    subst ha
    right; left; rfl

/-- C9 witness: the amended statement evaluated at a label holding a
space and an exclamation mark. -/
theorem c9_witness :
    file_name "My Label!" "20240101_000000" = "Updated_My_Label__20240101_000000.csv" ∧
      ('M'.isAlphanum = true ∨ 'M' = '_' ∨ 'M' = '-') := by
  refine ⟨((c9_amended_sanitized_name "My Label!" "20240101_000000").1).trans (by decide), ?_⟩
  exact (c9_amended_sanitized_name "My Label!" "20240101_000000").2.2 'M' (by decide)

/-- C10: the label lookup is case-insensitive on existing labels (first
match wins, no create call); a create call is issued exactly when no
case-insensitive match exists; and a failing list or create call makes
the function return none instead of raising. -/
theorem c10_label_lookup :
    (∀ (ls : List GLabel) (cr : Except String String) (n : String),
       (∃ l ∈ ls, strLower l.name = strLower n) →
         (get_or_create_label (.ok ls) cr n).2 = false ∧
         ∃ l ∈ ls, strLower l.name = strLower n ∧
           (get_or_create_label (.ok ls) cr n).1 = some l.id) ∧
    (∀ (ls : List GLabel) (n i : String),
       (∀ l ∈ ls, strLower l.name ≠ strLower n) →
         get_or_create_label (.ok ls) (.ok i) n = (some i, true)) ∧
    (∀ (ls : List GLabel) (n e : String),
       (∀ l ∈ ls, strLower l.name ≠ strLower n) →
         get_or_create_label (.ok ls) (.error e) n = (none, true)) ∧
    (∀ (e : String) (cr : Except String String) (n : String),
       get_or_create_label (.error e) cr n = (none, false)) := by
  refine ⟨?_, ?_, ?_, fun _ _ _ => rfl⟩
  · intro ls cr n hex
    obtain ⟨l, hl, hlm, hlf⟩ := findLabelLoop_of_exists hex
    constructor
    · simp only [get_or_create_label, hlf]
    · exact ⟨l, hl, hlm, by simp only [get_or_create_label, hlf]⟩
  · intro ls n i hne
    simp only [get_or_create_label, findLabelLoop_of_forall_ne hne]
  · intro ls n e hne
    simp only [get_or_create_label, findLabelLoop_of_forall_ne hne]

/-- C10 witness: an existing label matched with different case is
returned without a create call, and a failing list call yields none. -/
theorem c10_witness :
    (get_or_create_label (.ok [⟨"Mail Merge Sent", "L1"⟩]) (.ok "NEW") "MAIL MERGE SENT").2
        = false ∧
      get_or_create_label (.error "boom") (.ok "NEW") "MAIL MERGE SENT" = (none, false) := by
  refine ⟨(c10_label_lookup.1 [⟨"Mail Merge Sent", "L1"⟩] (.ok "NEW") "MAIL MERGE SENT"
    ⟨⟨"Mail Merge Sent", "L1"⟩, by decide, by decide⟩).1, ?_⟩
  exact c10_label_lookup.2.2.2 "boom" (.ok "NEW") "MAIL MERGE SENT"

end Maillink
